import Mathlib

/-!
Verification of `aws/rust-runtime/operation/src/endpoint.rs` (smithy-rs).

The module wraps an `http::Uri` in a `StaticEndpoint` descriptor and rewrites
the scheme and authority of outgoing request URIs.  We first embed the parts
of the `http` crate (version 0.x) that the module uses: `PathAndQuery`, `Uri`
with its component accessors, `Uri::into_parts`, `Uri::from_parts` (which is
what `Uri::builder()....build()` runs), `Display for Uri`, and `Uri::from_str`
restricted to absolute-form URIs (`scheme://authority[path[?query]]`), the only
form the module ever parses.  Rust panics (`expect` / `unwrap`) are modelled by
`Except String` carrying the panic message; `Option` models a fallible
constructor whose error value is never inspected.
-/

/-- Model of `http::uri::PathAndQuery`: the raw path-and-query bytes.  The
query starts after the first `?` of `data`, as in the http crate where the
query offset is the index of the first `?`. -/
structure PathAndQuery where
  data : String
deriving DecidableEq, Repr

/-- Embeds `PathAndQuery::path`: the bytes before the first `?`; an empty path reads
back as "/" (http crate behaviour). -/
def PathAndQuery.path (pq : PathAndQuery) : String :=
  let p := pq.data.data.takeWhile (fun c => c != '?')
  if p.isEmpty then "/" else ⟨p⟩

/-- Embeds `PathAndQuery::query`: the bytes after the first `?`, `none` when no `?`
occurs in the data. -/
def PathAndQuery.query (pq : PathAndQuery) : Option String :=
  match pq.data.data.dropWhile (fun c => c != '?') with
  | [] => none
  | _ :: qs => some ⟨qs⟩

/-- Model of `http::Uri`.  As in the http crate, the authority is stored as a
plain string with the empty string meaning "no authority", the scheme is
optional, and a `PathAndQuery` is always stored with empty data meaning "no
path". -/
structure Uri where
  scheme : Option String
  authority : String
  path_and_query : PathAndQuery
deriving DecidableEq, Repr

/-- Embeds `Uri::has_path` (http crate, private helper used by the accessors). -/
def Uri.hasPath (u : Uri) : Bool :=
  !u.path_and_query.data.data.isEmpty || u.scheme.isSome

/-- Embeds `Uri::path`. -/
def Uri.path (u : Uri) : String :=
  if u.hasPath then u.path_and_query.path else ""

/-- Embeds `Uri::query`. -/
def Uri.query (u : Uri) : Option String :=
  u.path_and_query.query

/-- Embeds `Uri::authority` as the optional accessor (`None` when the stored
authority string is empty). -/
def Uri.authorityOpt (u : Uri) : Option String :=
  if u.authority.data.isEmpty then none else some u.authority

/-- Embeds `Uri::path_and_query` accessor: `Some` unless the URI is in
authority-form (no scheme but a non-empty authority). -/
def Uri.pathAndQueryOpt (u : Uri) : Option PathAndQuery :=
  if u.scheme.isSome || u.authority.data.isEmpty then some u.path_and_query
  else none

/-- Model of `http::uri::Parts`. -/
structure Parts where
  scheme : Option String
  authority : Option String
  path_and_query : Option PathAndQuery
deriving DecidableEq, Repr

/-- Embeds `Uri::into_parts` (`From<Uri> for Parts`). -/
def Uri.into_parts (u : Uri) : Parts :=
  { scheme := u.scheme
    authority := if u.authority.data.isEmpty then none else some u.authority
    path_and_query := if u.hasPath then some u.path_and_query else none }

/-- Embeds `Uri::from_parts`, which is what `Uri::builder()....build()` executes once
all components are set.  A scheme requires an authority and a path; an
authority with a path requires a scheme. -/
def Uri.from_parts (p : Parts) : Except String Uri :=
  if p.scheme.isSome then
    if p.authority.isNone then Except.error "authority missing"
    else if p.path_and_query.isNone then Except.error "path missing"
    else Except.ok ⟨p.scheme, p.authority.getD "", p.path_and_query.getD ⟨""⟩⟩
  else
    if p.authority.isSome && p.path_and_query.isSome then
      Except.error "scheme missing"
    else Except.ok ⟨p.scheme, p.authority.getD "", p.path_and_query.getD ⟨""⟩⟩

/-- Embeds `Display for Uri`: `scheme://` when present, then the authority, then
`Uri::path`, then `?query` when present. -/
def Uri.toString (u : Uri) : String :=
  (match u.scheme with
    | some s => s ++ "://"
    | none => "") ++
  u.authority ++
  u.path ++
  (match u.query with
    | some q => "?" ++ q
    | none => "")

/-- Characters the http crate accepts in a scheme. -/
def schemeCharOk (c : Char) : Bool :=
  c.isAlphanum || c == '+' || c == '-' || c == '.'

/-- Characters the http crate accepts inside an authority (no `/`, `?`, `#`). -/
def authorityCharOk (c : Char) : Bool :=
  c.isAlphanum || c == '-' || c == '.' || c == '_' || c == '~' || c == '!' ||
  c == '$' || c == '&' || c == '(' || c == ')' || c == '*' || c == '+' ||
  c == ',' || c == ';' || c == '=' || c == ':' || c == '@' || c == '[' ||
  c == ']' || c == '%'

/-- Characters accepted in the path-and-query component (authority characters
plus `/` and `?`; the fragment delimiter `#` terminates the component). -/
def pqCharOk (c : Char) : Bool :=
  authorityCharOk c || c == '/' || c == '?'

/-- Host-label characters: alphanumerics, `-`, `.` and `_`.  This is the
formalization of the spec's "strings containing no URI-special characters"
for service and region names. -/
def hostCharOk (c : Char) : Bool :=
  c.isAlphanum || c == '-' || c == '.' || c == '_'

/-- Split a character list at its first `:`; `none` when no `:` occurs. -/
def splitAtColon : List Char → Option (List Char × List Char)
  | [] => none
  | c :: rest =>
    if c == ':' then some ([], rest)
    else
      match splitAtColon rest with
      | some (a, b) => some (c :: a, b)
      | none => none

/-- Split a character list at the first authority-ending delimiter
(`/`, `?` or `#`). -/
def splitAuthority : List Char → List Char × List Char
  | [] => ([], [])
  | c :: rest =>
    if c == '/' || c == '?' || c == '#' then ([], c :: rest)
    else
      let p := splitAuthority rest
      (c :: p.1, p.2)

/-- Embeds `Uri::from_str` restricted to absolute-form URIs
(`scheme://authority[path[?query]][#fragment]`), the only form parsed by the
endpoint module: the scheme is the (validated, non-empty) prefix before the
first `:`, which must be followed by `//`; the authority is the (validated,
non-empty) run up to the first `/`, `?` or `#`; the rest, truncated at `#`
(the http crate drops the fragment), is the path-and-query. -/
def Uri.from_str (s : String) : Option Uri :=
  match splitAtColon s.data with
  | none => none
  | some (schemeChars, rest) =>
    match rest with
    | '/' :: '/' :: rest2 =>
      if schemeChars.isEmpty then none
      else if !schemeChars.all schemeCharOk then none
      else if (splitAuthority rest2).1.isEmpty then none
      else if !(splitAuthority rest2).1.all authorityCharOk then none
      else if !((splitAuthority rest2).2.takeWhile
          (fun c => c != '#')).all pqCharOk then none
      else some ⟨some ⟨schemeChars⟩, ⟨(splitAuthority rest2).1⟩,
        ⟨⟨(splitAuthority rest2).2.takeWhile (fun c => c != '#')⟩⟩⟩
    | _ => none

/-! ## The endpoint module itself (`endpoint.rs`) -/

/-- Embeds `pub struct StaticEndpoint(http::Uri);` -/
structure StaticEndpoint where
  uri : Uri
deriving DecidableEq, Repr

/-- Embeds `StaticEndpoint::from_service_region`: parses
`https://{svc}.{region}.amazonaws.com`; the Rust `unwrap` on a parse failure
is modelled by `Option`. -/
def StaticEndpoint.from_service_region (svc region : String) :
    Option StaticEndpoint :=
  (Uri.from_str ("https://" ++ svc ++ "." ++ region ++ ".amazonaws.com")).map
    StaticEndpoint.mk

/-- Embeds `StaticEndpoint::from_uri`. -/
def StaticEndpoint.from_uri (uri : Uri) : StaticEndpoint :=
  StaticEndpoint.mk uri

/-- Embeds `StaticEndpoint::apply`: decompose the stored URI into parts, `expect`
authority and scheme, `unwrap` the request URI's path-and-query, and build a
new URI from the three.  `Except.error` carries the Rust panic message. -/
def StaticEndpoint.apply (e : StaticEndpoint) (base_uri : Uri) :
    Except String Uri := do
  let parts := e.uri.into_parts
  let auth ← match parts.authority with
    | some a => Except.ok a
    | none => Except.error "base uri must have an authority"
  let sch ← match parts.scheme with
    | some s => Except.ok s
    | none => Except.error "base uri must have scheme"
  let pq ← match base_uri.pathAndQueryOpt with
    | some pq => Except.ok pq
    | none => Except.error "called Option::unwrap on a None value"
  match Uri.from_parts ⟨some sch, some auth, some pq⟩ with
  | Except.ok u => Except.ok u
  | Except.error _ => Except.error "valid uri"

/-- Embeds `StaticEndpoint::apply` with the borrowed state threaded explicitly: the
descriptor and the request URI go in and come back out alongside the result,
making it visible that neither is modified. -/
def StaticEndpoint.applyST (e : StaticEndpoint) (base_uri : Uri) :
    Except String (Uri × StaticEndpoint × Uri) := do
  let u ← e.apply base_uri
  Except.ok (u, e, base_uri)

/-- Embeds `ProvideEndpoint::set_endpoint(&self, request_uri: &mut Uri)`: the mutable
borrow becomes explicit state passing — the returned URI is the new value of
`*request_uri`. -/
class ProvideEndpoint (α : Type) where
  set_endpoint : α → Uri → Except String Uri

/-- Embeds `impl ProvideEndpoint for StaticEndpoint`: compute `apply`, overwrite. -/
def StaticEndpoint.set_endpoint (e : StaticEndpoint) (request_uri : Uri) :
    Except String Uri := do
  let new_uri ← e.apply request_uri
  Except.ok new_uri

instance : ProvideEndpoint StaticEndpoint :=
  ⟨StaticEndpoint.set_endpoint⟩

/-- Modelled from the spec: the `Operation` request abstraction from
`crate::Operation` is not under `src/`; per the spec it exposes a mutable URI
field and a configuration field carrying the endpoint-resolution strategy. -/
structure Operation (E : Type) where
  uri : Uri
  endpoint_config : E
deriving DecidableEq

/- Modelled from the spec: `OperationMiddleware::apply` (from
`crate::middleware`, not under `src/`) takes a mutable request and returns
`Result<(), Box<dyn Error>>`.  A middleware run below is `Except String`
(panic) of the returned `Result` (modelled `Except String Unit`) paired with
the updated request. -/

/-- The blanket `impl<H, T> OperationMiddleware<H> for T where T: ProvideEndpoint`:
call `set_endpoint` on the request's URI directly on the provider value, then
return `Ok(())`. -/
def providerMiddlewareApply {T E : Type} [ProvideEndpoint T] (t : T)
    (op : Operation E) : Except String (Except String Unit × Operation E) := do
  let u ← ProvideEndpoint.set_endpoint t op.uri
  Except.ok (Except.ok (), { op with uri := u })

/-- Embeds `pub struct EndpointMiddleware;` -/
structure EndpointMiddleware where
deriving DecidableEq, Repr

/-- Embeds `impl<H> OperationMiddleware<H> for EndpointMiddleware`: read
`request.endpoint_config`, call its `set_endpoint` on the request's URI,
return `Ok(())`. -/
def EndpointMiddleware.apply {E : Type} [ProvideEndpoint E]
    (_m : EndpointMiddleware) (op : Operation E) :
    Except String (Except String Unit × Operation E) := do
  let u ← ProvideEndpoint.set_endpoint op.endpoint_config op.uri
  Except.ok (Except.ok (), { op with uri := u })

instance {e a : Type} [DecidableEq e] [DecidableEq a] : DecidableEq (Except e a) :=
  fun x y =>
  match x, y with
  | Except.error u, Except.error v =>
    if h : u = v then Decidable.isTrue (congrArg Except.error h)
    else Decidable.isFalse (fun hc => h (Except.error.inj hc))
  | Except.ok u, Except.ok v =>
    if h : u = v then Decidable.isTrue (congrArg Except.ok h)
    else Decidable.isFalse (fun hc => h (Except.ok.inj hc))
  | Except.error _, Except.ok _ => Decidable.isFalse (fun hc => Except.noConfusion hc)
  | Except.ok _, Except.error _ => Decidable.isFalse (fun hc => Except.noConfusion hc)

/-- The preconditions of `StaticEndpoint::apply`: the descriptor's URI has an
authority and a scheme, and the request URI's path-and-query accessor is
`Some`. -/
def applyPreconds (e : StaticEndpoint) (r : Uri) : Prop :=
  e.uri.authority ≠ "" ∧ e.uri.scheme.isSome = true ∧
    r.pathAndQueryOpt.isSome = true

/-! ## Helper lemmas -/

theorem str_ext {a b : String} (h : a.data = b.data) : a = b := by
  cases a
  cases b
  exact congrArg String.mk h

theorem str_eq_empty_iff (s : String) : s = "" ↔ s.data = [] := by
  constructor
  · intro h
    rw [h]
  · intro h
    exact str_ext h

theorem pathAndQueryOpt_eq_some {r : Uri} {x : PathAndQuery}
    (h : r.pathAndQueryOpt = some x) : x = r.path_and_query := by
  unfold Uri.pathAndQueryOpt at h
  split at h
  · exact (Option.some.inj h).symm
  · exact absurd h (by simp)

/-- Full case analysis of `StaticEndpoint::apply`. -/
theorem apply_eq_cases (e : StaticEndpoint) (r : Uri) :
    e.apply r =
      if e.uri.authority.data.isEmpty then
        Except.error "base uri must have an authority"
      else if !e.uri.scheme.isSome then
        Except.error "base uri must have scheme"
      else if !r.pathAndQueryOpt.isSome then
        Except.error "called Option::unwrap on a None value"
      else
        Except.ok ⟨e.uri.scheme, e.uri.authority, r.path_and_query⟩ := by
  rcases e with ⟨sch, auth, pq⟩
  by_cases ha : auth.data.isEmpty
  · simp [StaticEndpoint.apply, Uri.into_parts, ha, Bind.bind, Except.bind]
  · cases sch with
    | none =>
      simp [StaticEndpoint.apply, Uri.into_parts, ha, Bind.bind, Except.bind]
    | some s =>
      cases hq : r.pathAndQueryOpt with
      | none =>
        simp [StaticEndpoint.apply, Uri.into_parts, ha, hq, Bind.bind,
          Except.bind]
      | some x =>
        have hx := pathAndQueryOpt_eq_some hq
        subst hx
        simp [StaticEndpoint.apply, Uri.into_parts, Uri.from_parts, ha, hq,
          Bind.bind, Except.bind]

/-- Success characterization of `StaticEndpoint::apply`. -/
theorem apply_ok_iff {e : StaticEndpoint} {r u : Uri} :
    e.apply r = Except.ok u ↔
      e.uri.authority.data.isEmpty = false ∧ e.uri.scheme.isSome = true ∧
      r.pathAndQueryOpt.isSome = true ∧
      u = ⟨e.uri.scheme, e.uri.authority, r.path_and_query⟩ := by
  rw [apply_eq_cases]
  constructor
  · intro h
    split at h
    · exact absurd h (by simp)
    · split at h
      · exact absurd h (by simp)
      · split at h
        · exact absurd h (by simp)
        · rename_i h1 h2 h3
          refine ⟨?_, ?_, ?_, (Except.ok.inj h).symm⟩
          · simpa using h1
          · simpa [Option.isSome_iff_ne_none] using h2
          · simpa [Option.isSome_iff_ne_none] using h3
  · rintro ⟨h1, h2, h3, rfl⟩
    simp [h1, h2, h3]

theorem string_isEmpty_iff (s : String) : s.data.isEmpty = true ↔ s = "" := by
  rw [str_eq_empty_iff]
  exact List.isEmpty_iff

theorem pathAndQueryOpt_isSome_eq {r : Uri}
    (h : r.pathAndQueryOpt.isSome = true) :
    r.pathAndQueryOpt = some r.path_and_query := by
  cases hq : r.pathAndQueryOpt with
  | none => simp [hq] at h
  | some x => rw [pathAndQueryOpt_eq_some hq]

theorem set_endpoint_eq_apply (e : StaticEndpoint) (r : Uri) :
    e.set_endpoint r = e.apply r := by
  cases h : e.apply r <;>
    simp [StaticEndpoint.set_endpoint, h, Bind.bind, Except.bind]

theorem preconds_bools {e : StaticEndpoint} {r : Uri} (h : applyPreconds e r) :
    e.uri.authority.data.isEmpty = false ∧ e.uri.scheme.isSome = true ∧
      r.pathAndQueryOpt.isSome = true := by
  obtain ⟨ha, hs, hp⟩ := h
  refine ⟨?_, hs, hp⟩
  cases hE : e.uri.authority.data.isEmpty
  · rfl
  · exact absurd ((string_isEmpty_iff _).mp hE) ha

theorem apply_ok_of_preconds {e : StaticEndpoint} {r : Uri}
    (h : applyPreconds e r) :
    e.apply r = Except.ok ⟨e.uri.scheme, e.uri.authority, r.path_and_query⟩ := by
  obtain ⟨h1, h2, h3⟩ := preconds_bools h
  exact apply_ok_iff.mpr ⟨h1, h2, h3, rfl⟩

/-! ## Claim theorems -/

/-- C1: for every descriptor `D` and request URI `R`, whenever `D.apply(R)`
completes (in particular whenever `R`'s path-and-query is present and
non-empty and the descriptor is well formed), the result's path-and-query
component equals `R`'s byte-for-byte, query-parameter order included; and a
descriptor built from `"http://localhost:8080/"` applied to a request URI
with path-and-query `"/get?k=123&v=456"` yields
`"http://localhost:8080/get?k=123&v=456"`. -/
theorem C1_path_query_preserved :
    (∀ (D : StaticEndpoint) (R u : Uri), D.apply R = Except.ok u →
      u.path_and_query = R.path_and_query ∧
      u.pathAndQueryOpt = some R.path_and_query) ∧
    (Uri.from_str "http://localhost:8080/").map
        (fun d => ((StaticEndpoint.from_uri d).apply
          ⟨none, "", ⟨"/get?k=123&v=456"⟩⟩).map Uri.toString) =
      some (Except.ok "http://localhost:8080/get?k=123&v=456") := by
  constructor
  · intro D R u h
    obtain ⟨h1, h2, h3, rfl⟩ := apply_ok_iff.mp h
    exact ⟨rfl, by simp [Uri.pathAndQueryOpt, h2]⟩
  · decide

theorem C1_path_query_preserved_witness :
    (⟨some "http", "localhost:8080", ⟨"/get?k=123&v=456"⟩⟩ : Uri).path_and_query =
      (⟨none, "", ⟨"/get?k=123&v=456"⟩⟩ : Uri).path_and_query ∧
    (⟨some "http", "localhost:8080", ⟨"/get?k=123&v=456"⟩⟩ : Uri).pathAndQueryOpt =
      some (⟨none, "", ⟨"/get?k=123&v=456"⟩⟩ : Uri).path_and_query :=
  C1_path_query_preserved.1 ⟨⟨some "http", "localhost:8080", ⟨"/"⟩⟩⟩
    ⟨none, "", ⟨"/get?k=123&v=456"⟩⟩
    ⟨some "http", "localhost:8080", ⟨"/get?k=123&v=456"⟩⟩ (by decide)

/-- C2: for every descriptor `D` and request URI `R`, whenever `D.apply(R)`
completes, the result's scheme and authority equal `D`'s stored scheme and
authority, regardless of `R`'s original scheme and authority (including when
`R` has neither, as the witness instantiates). -/
theorem C2_scheme_authority_override :
    ∀ (D : StaticEndpoint) (R u : Uri), D.apply R = Except.ok u →
      u.scheme = D.uri.scheme ∧ u.authority = D.uri.authority ∧
      u.authorityOpt = D.uri.authorityOpt := by
  intro D R u h
  obtain ⟨h1, h2, h3, rfl⟩ := apply_ok_iff.mp h
  exact ⟨rfl, rfl, rfl⟩

theorem C2_scheme_authority_override_witness :
    (⟨some "http", "localhost:8080", ⟨"/get?k=123&v=456"⟩⟩ : Uri).scheme =
      (StaticEndpoint.mk ⟨some "http", "localhost:8080", ⟨"/"⟩⟩).uri.scheme ∧
    (⟨some "http", "localhost:8080", ⟨"/get?k=123&v=456"⟩⟩ : Uri).authority =
      (StaticEndpoint.mk ⟨some "http", "localhost:8080", ⟨"/"⟩⟩).uri.authority ∧
    (⟨some "http", "localhost:8080", ⟨"/get?k=123&v=456"⟩⟩ : Uri).authorityOpt =
      (StaticEndpoint.mk ⟨some "http", "localhost:8080", ⟨"/"⟩⟩).uri.authorityOpt :=
  C2_scheme_authority_override ⟨⟨some "http", "localhost:8080", ⟨"/"⟩⟩⟩
    ⟨none, "", ⟨"/get?k=123&v=456"⟩⟩
    ⟨some "http", "localhost:8080", ⟨"/get?k=123&v=456"⟩⟩ (by decide)

/-- C4: `apply` completes exactly when its preconditions hold (descriptor
stores a scheme and an authority, request URI has a present path-and-query);
when a precondition is violated, `apply` halts at once with one of the
descriptive panic messages instead of returning a malformed URI or a
recoverable error. -/
theorem C4_preconditions_fatal :
    ∀ (e : StaticEndpoint) (r : Uri),
      (applyPreconds e r → ∃ u, e.apply r = Except.ok u) ∧
      (¬applyPreconds e r →
        (e.apply r = Except.error "base uri must have an authority" ∨
         e.apply r = Except.error "base uri must have scheme" ∨
         e.apply r = Except.error "called Option::unwrap on a None value")) := by
  intro e r
  constructor
  · rintro ⟨ha, hs, hp⟩
    refine ⟨_, apply_ok_iff.mpr ⟨?_, hs, hp, rfl⟩⟩
    cases hE : e.uri.authority.data.isEmpty
    · rfl
    · exact absurd ((string_isEmpty_iff _).mp hE) ha
  · intro hn
    rw [apply_eq_cases]
    by_cases ha : e.uri.authority.data.isEmpty
    · simp [ha]
    · by_cases hs : e.uri.scheme.isSome
      · by_cases hp : r.pathAndQueryOpt.isSome
        · refine absurd ⟨?_, hs, hp⟩ hn
          intro he
          exact ha ((string_isEmpty_iff _).mpr he)
        · simp [ha, hs, hp]
      · simp [ha, hs]

theorem C4_preconditions_fatal_witness :
    ∃ u, (StaticEndpoint.mk ⟨some "http", "localhost:8080", ⟨"/"⟩⟩).apply
      ⟨none, "", ⟨"/get?k=123&v=456"⟩⟩ = Except.ok u :=
  (C4_preconditions_fatal ⟨⟨some "http", "localhost:8080", ⟨"/"⟩⟩⟩
    ⟨none, "", ⟨"/get?k=123&v=456"⟩⟩).1 ⟨by decide, by decide, by decide⟩

/-- C5: application with a fixed descriptor is idempotent — whenever
`D.apply(R)` completes with result `u`, applying `D` again to `u` completes
and returns `u` itself. -/
theorem C5_idempotent :
    ∀ (e : StaticEndpoint) (r u : Uri),
      e.apply r = Except.ok u → e.apply u = Except.ok u := by
  intro e r u h
  obtain ⟨h1, h2, h3, rfl⟩ := apply_ok_iff.mp h
  exact apply_ok_iff.mpr ⟨h1, h2, by simp [Uri.pathAndQueryOpt, h2], rfl⟩

theorem C5_idempotent_witness :
    (StaticEndpoint.mk ⟨some "http", "localhost:8080", ⟨"/"⟩⟩).apply
      ⟨some "http", "localhost:8080", ⟨"/get?k=123&v=456"⟩⟩ =
    Except.ok ⟨some "http", "localhost:8080", ⟨"/get?k=123&v=456"⟩⟩ :=
  C5_idempotent ⟨⟨some "http", "localhost:8080", ⟨"/"⟩⟩⟩
    ⟨none, "", ⟨"/get?k=123&v=456"⟩⟩
    ⟨some "http", "localhost:8080", ⟨"/get?k=123&v=456"⟩⟩ (by decide)

/-- C6: `set_endpoint` is exactly "compute `apply`, overwrite in place" — in
the state-passing embedding the URI left in `*request_uri` after
`set_endpoint` is precisely `apply`'s result on the previous value. -/
theorem C6_set_endpoint_is_apply :
    ∀ (e : StaticEndpoint) (request_uri : Uri),
      e.set_endpoint request_uri = e.apply request_uri := by
  intro e r
  exact set_endpoint_eq_apply e r

/-- C9: `apply` is pure — the state-threaded version returns the freshly
composed URI together with the descriptor and the request URI unchanged, and
its result component is exactly the functional `apply`. -/
theorem C9_apply_pure_frame :
    ∀ (e : StaticEndpoint) (r : Uri),
      e.applyST r = (e.apply r).map (fun u => (u, e, r)) := by
  intro e r
  cases h : e.apply r <;>
    simp [StaticEndpoint.applyST, h, Bind.bind, Except.bind, Except.map]

/-- C10: `apply` ignores the descriptor's own path-and-query — the outcome
depends only on the descriptor's scheme and authority and on the request
URI's path-and-query component, so a path or query on the URI the
descriptor was built from never reaches the result. -/
theorem C10_descriptor_path_ignored :
    ∀ (e1 e2 : StaticEndpoint) (r1 r2 : Uri),
      e1.uri.scheme = e2.uri.scheme →
      e1.uri.authority = e2.uri.authority →
      r1.pathAndQueryOpt = r2.pathAndQueryOpt →
      e1.apply r1 = e2.apply r2 := by
  intro e1 e2 r1 r2 hs ha hp
  rw [apply_eq_cases, apply_eq_cases, hs, ha, hp]
  by_cases h3 : r2.pathAndQueryOpt.isSome
  · have h1 := pathAndQueryOpt_isSome_eq (hp ▸ h3)
    have h2 := pathAndQueryOpt_isSome_eq h3
    rw [hp] at h1
    rw [h1] at h2
    rw [Option.some.inj h2]
  · simp [h3]

theorem C10_descriptor_path_ignored_witness :
    (StaticEndpoint.mk ⟨some "http", "localhost:8080", ⟨"/"⟩⟩).apply
      ⟨none, "", ⟨"/get?k=123&v=456"⟩⟩ =
    (StaticEndpoint.mk ⟨some "http", "localhost:8080", ⟨""⟩⟩).apply
      ⟨some "https", "placeholder.example", ⟨"/get?k=123&v=456"⟩⟩ :=
  C10_descriptor_path_ignored
    ⟨⟨some "http", "localhost:8080", ⟨"/"⟩⟩⟩
    ⟨⟨some "http", "localhost:8080", ⟨""⟩⟩⟩
    ⟨none, "", ⟨"/get?k=123&v=456"⟩⟩
    ⟨some "https", "placeholder.example", ⟨"/get?k=123&v=456"⟩⟩
    (by decide) (by decide) (by decide)

/-- C7: whenever `EndpointMiddleware`'s `apply` (which reads the endpoint
provider from the request's configuration) or the blanket middleware obtained
from any `ProvideEndpoint` implementer (which uses the provider value
directly) completes, it has invoked `set_endpoint` on the request's URI and
returned `Ok(())` — the `Result` failure path is never exercised — and under
the preconditions both complete. -/
theorem C7_middleware_always_ok :
    (∀ (E : Type) [ProvideEndpoint E] (m : EndpointMiddleware)
        (op : Operation E) (res : Except String Unit) (op2 : Operation E),
        m.apply op = Except.ok (res, op2) →
        res = Except.ok () ∧
        ProvideEndpoint.set_endpoint op.endpoint_config op.uri =
          Except.ok op2.uri ∧
        op2.endpoint_config = op.endpoint_config) ∧
    (∀ (T E : Type) [ProvideEndpoint T] (t : T)
        (op : Operation E) (res : Except String Unit) (op2 : Operation E),
        providerMiddlewareApply t op = Except.ok (res, op2) →
        res = Except.ok () ∧
        ProvideEndpoint.set_endpoint t op.uri = Except.ok op2.uri ∧
        op2.endpoint_config = op.endpoint_config) ∧
    (∀ (op : Operation StaticEndpoint),
        applyPreconds op.endpoint_config op.uri →
        (∃ u, EndpointMiddleware.apply ⟨⟩ op =
            Except.ok (Except.ok (), ⟨u, op.endpoint_config⟩)) ∧
        (∃ u, providerMiddlewareApply op.endpoint_config op =
            Except.ok (Except.ok (), ⟨u, op.endpoint_config⟩))) := by
  refine ⟨?_, ?_, ?_⟩
  · intro E _ m op res op2 h
    cases hs : ProvideEndpoint.set_endpoint op.endpoint_config op.uri with
    | error msg =>
      simp [EndpointMiddleware.apply, hs, Bind.bind, Except.bind] at h
    | ok u =>
      simp only [EndpointMiddleware.apply, hs, Bind.bind, Except.bind,
        Except.ok.injEq, Prod.mk.injEq] at h
      obtain ⟨h1, h2⟩ := h
      subst h2
      exact ⟨h1.symm, rfl, rfl⟩
  · intro T E _ t op res op2 h
    cases hs : ProvideEndpoint.set_endpoint t op.uri with
    | error msg =>
      simp [providerMiddlewareApply, hs, Bind.bind, Except.bind] at h
    | ok u =>
      simp only [providerMiddlewareApply, hs, Bind.bind, Except.bind,
        Except.ok.injEq, Prod.mk.injEq] at h
      obtain ⟨h1, h2⟩ := h
      subst h2
      exact ⟨h1.symm, rfl, rfl⟩
  · intro op hpre
    have ha := apply_ok_of_preconds hpre
    have hset : StaticEndpoint.set_endpoint op.endpoint_config op.uri =
        Except.ok ⟨op.endpoint_config.uri.scheme, op.endpoint_config.uri.authority,
          op.uri.path_and_query⟩ := by
      rw [set_endpoint_eq_apply, ha]
    constructor
    · refine ⟨⟨op.endpoint_config.uri.scheme, op.endpoint_config.uri.authority,
        op.uri.path_and_query⟩, ?_⟩
      cases op with
      | mk u cfg =>
        simp [EndpointMiddleware.apply, ProvideEndpoint.set_endpoint, hset,
          Bind.bind, Except.bind]
    · refine ⟨⟨op.endpoint_config.uri.scheme, op.endpoint_config.uri.authority,
        op.uri.path_and_query⟩, ?_⟩
      cases op with
      | mk u cfg =>
        simp [providerMiddlewareApply, ProvideEndpoint.set_endpoint, hset,
          Bind.bind, Except.bind]

theorem C7_middleware_always_ok_witness :
    (∃ u, EndpointMiddleware.apply EndpointMiddleware.mk
        (Operation.mk ⟨none, "", ⟨"/get?k=123&v=456"⟩⟩
          (StaticEndpoint.mk ⟨some "http", "localhost:8080", ⟨"/"⟩⟩)) =
      Except.ok (Except.ok (), Operation.mk u
        (StaticEndpoint.mk ⟨some "http", "localhost:8080", ⟨"/"⟩⟩))) ∧
    (∃ u, providerMiddlewareApply
        (StaticEndpoint.mk ⟨some "http", "localhost:8080", ⟨"/"⟩⟩)
        (Operation.mk ⟨none, "", ⟨"/get?k=123&v=456"⟩⟩
          (StaticEndpoint.mk ⟨some "http", "localhost:8080", ⟨"/"⟩⟩)) =
      Except.ok (Except.ok (), Operation.mk u
        (StaticEndpoint.mk ⟨some "http", "localhost:8080", ⟨"/"⟩⟩))) :=
  C7_middleware_always_ok.2.2
    (Operation.mk ⟨none, "", ⟨"/get?k=123&v=456"⟩⟩
      (StaticEndpoint.mk ⟨some "http", "localhost:8080", ⟨"/"⟩⟩))
    ⟨by decide, by decide, by decide⟩

theorem hostCharOk_authorityCharOk {c : Char} (h : hostCharOk c = true) :
    authorityCharOk c = true := by
  simp only [hostCharOk, Bool.or_eq_true, beq_iff_eq] at h
  rcases h with ((h | rfl) | rfl) | rfl
  · simp [authorityCharOk, h]
  · decide
  · decide
  · decide

theorem hostCharOk_not_delim {c : Char} (h : hostCharOk c = true) :
    (c == '/' || c == '?' || c == '#') = false := by
  simp only [hostCharOk, Bool.or_eq_true, beq_iff_eq] at h
  rcases h with ((h | rfl) | rfl) | rfl
  · rcases eq_or_ne c '/' with rfl | h1
    · exact absurd h (by decide)
    rcases eq_or_ne c '?' with rfl | h2
    · exact absurd h (by decide)
    rcases eq_or_ne c '#' with rfl | h3
    · exact absurd h (by decide)
    simp [h1, h2, h3]
  · decide
  · decide
  · decide

theorem splitAtColon_https (r : List Char) :
    splitAtColon ('h' :: 't' :: 't' :: 'p' :: 's' :: ':' :: r) =
      some (['h', 't', 't', 'p', 's'], r) := by
  simp [splitAtColon]

theorem splitAuthority_all_ok {l : List Char}
    (h : ∀ c ∈ l, hostCharOk c = true) :
    splitAuthority l = (l, []) := by
  induction l with
  | nil => rfl
  | cons c rest ih =>
    have hc := hostCharOk_not_delim (h c (List.mem_cons_self c rest))
    simp [splitAuthority, hc, ih (fun x hx => h x (List.mem_cons_of_mem c hx))]

theorem from_str_https (A : String) (hne : A ≠ "")
    (hok : A.data.all hostCharOk = true) :
    Uri.from_str ("https://" ++ A) = some ⟨some "https", A, ⟨""⟩⟩ := by
  have hdata : ("https://" ++ A).data =
      'h' :: 't' :: 't' :: 'p' :: 's' :: ':' :: '/' :: '/' :: A.data := by
    rw [String.data_append]
    rfl
  have hmem : ∀ c ∈ A.data, hostCharOk c = true := List.all_eq_true.mp hok
  have hae : A.data.isEmpty = false := by
    cases hA : A.data with
    | nil => exact absurd ((str_eq_empty_iff A).mpr hA) hne
    | cons x xs => rfl
  unfold Uri.from_str
  rw [hdata, splitAtColon_https]
  simp only [splitAuthority_all_ok hmem, List.takeWhile_nil, List.all_nil,
    List.isEmpty_nil, hae, Bool.not_false, Bool.not_true,
    List.all_eq_true.mpr (fun c hc => hostCharOk_authorityCharOk (hmem c hc))]
  simp only [show (['h', 't', 't', 'p', 's'] : List Char).isEmpty = false from
    rfl, show (['h', 't', 't', 'p', 's'] : List Char).all schemeCharOk = true
    from by decide, Bool.not_false]
  simp only [if_false, Bool.false_eq_true, ite_false]
  exact congrArg some (congrArg _ (by cases A with | mk d => rfl))

theorem str_append_assoc (a b c : String) : a ++ b ++ c = a ++ (b ++ c) :=
  str_ext (by simp [String.data_append])

theorem toString_https_authority (A : String) :
    (Uri.mk (some "https") A ⟨""⟩).toString = "https://" ++ A ++ "/" := by
  apply str_ext
  have h0 : ("" : String).data = [] := rfl
  unfold Uri.toString Uri.path Uri.hasPath PathAndQuery.path Uri.query
    PathAndQuery.query
  simp [String.data_append, h0]

theorem from_service_region_eq (svc region : String)
    (hoks : svc.data.all hostCharOk = true)
    (hokr : region.data.all hostCharOk = true) :
    StaticEndpoint.from_service_region svc region =
      some ⟨⟨some "https", svc ++ "." ++ region ++ ".amazonaws.com", ⟨""⟩⟩⟩ := by
  have hdot : (".".data : List Char) = ['.'] := rfl
  have hgrp : "https://" ++ svc ++ "." ++ region ++ ".amazonaws.com" =
      "https://" ++ (svc ++ "." ++ region ++ ".amazonaws.com") :=
    str_ext (by simp [String.data_append])
  have hne : (svc ++ "." ++ region ++ ".amazonaws.com") ≠ "" := by
    intro h
    have hd := (str_eq_empty_iff _).mp h
    simp [String.data_append, hdot] at hd
  have h1 : (".".data).all hostCharOk = true := by decide
  have h2 : (".amazonaws.com".data).all hostCharOk = true := by decide
  have hokA : (svc ++ "." ++ region ++ ".amazonaws.com").data.all hostCharOk
      = true := by
    simp [String.data_append, List.all_append, hoks, hokr, h1, h2]
    decide
  unfold StaticEndpoint.from_service_region
  rw [hgrp, from_str_https _ hne hokA]
  rfl

/-- C3: for all non-empty service/region strings of host characters,
`from_service_region` builds a descriptor with scheme `"https"`, authority
`"{service}.{region}.amazonaws.com"` and no path (the textual template has
no path), whose `uri().to_string()` is
`"https://{service}.{region}.amazonaws.com/"`; concretely for
`("dynamodb", "us-west-2")` the printed URI is
`"https://dynamodb.us-west-2.amazonaws.com/"`. -/
theorem C3_from_service_region_template :
    (∀ svc region : String, svc ≠ "" → region ≠ "" →
      svc.data.all hostCharOk = true → region.data.all hostCharOk = true →
      ∃ e, StaticEndpoint.from_service_region svc region = some e ∧
        e.uri.scheme = some "https" ∧
        e.uri.authority = svc ++ "." ++ region ++ ".amazonaws.com" ∧
        e.uri.path_and_query.data = "" ∧
        e.uri.toString =
          "https://" ++ (svc ++ "." ++ region ++ ".amazonaws.com") ++ "/") ∧
    (StaticEndpoint.from_service_region "dynamodb" "us-west-2").map
        (fun e => e.uri.toString) =
      some "https://dynamodb.us-west-2.amazonaws.com/" := by
  constructor
  · intro svc region hs hr hoks hokr
    refine ⟨_, from_service_region_eq svc region hoks hokr, rfl, rfl, rfl, ?_⟩
    exact toString_https_authority (svc ++ "." ++ region ++ ".amazonaws.com")
  · decide

theorem C3_from_service_region_template_witness :
    ∃ e, StaticEndpoint.from_service_region "dynamodb" "us-west-2" = some e ∧
      e.uri.scheme = some "https" ∧
      e.uri.authority = "dynamodb" ++ "." ++ "us-west-2" ++ ".amazonaws.com" ∧
      e.uri.path_and_query.data = "" ∧
      e.uri.toString =
        "https://" ++ ("dynamodb" ++ "." ++ "us-west-2" ++ ".amazonaws.com")
          ++ "/" :=
  C3_from_service_region_template.1 "dynamodb" "us-west-2"
    (by decide) (by decide) (by decide) (by decide)

theorem from_str_scheme_authority {s : String} {u : Uri}
    (h : Uri.from_str s = some u) :
    (∃ sc, u.scheme = some sc ∧ sc ≠ "") ∧ u.authority ≠ "" := by
  unfold Uri.from_str at h
  split at h
  · exact absurd h (by simp)
  · split at h
    · split at h
      · exact absurd h (by simp)
      · split at h
        · exact absurd h (by simp)
        · split at h
          · exact absurd h (by simp)
          · split at h
            · exact absurd h (by simp)
            · split at h
              · exact absurd h (by simp)
              · rename_i hsch hschall hauth hauthall hpq
                obtain rfl := (Option.some.inj h).symm
                refine ⟨⟨_, rfl, ?_⟩, ?_⟩
                · intro he
                  have hd := (str_eq_empty_iff _).mp he
                  exact hsch (List.isEmpty_iff.mpr hd)
                · intro he
                  have hd := (str_eq_empty_iff _).mp he
                  exact hauth (List.isEmpty_iff.mpr hd)
    · exact absurd h (by simp)

/-- C8 counterexample: `from_uri` performs no validation, so a descriptor
built from a URI with neither scheme nor authority (a URI that the builder
accepts: path-and-query only) has scheme `none` and an empty authority,
refuting the claim that every constructed descriptor has both present and
non-empty. -/
theorem C8_counterexample_from_uri :
    Uri.from_parts ⟨none, none, some ⟨"/get?k=123&v=456"⟩⟩ =
      Except.ok ⟨none, "", ⟨"/get?k=123&v=456"⟩⟩ ∧
    (StaticEndpoint.from_uri ⟨none, "", ⟨"/get?k=123&v=456"⟩⟩).uri.scheme =
      none ∧
    (StaticEndpoint.from_uri ⟨none, "", ⟨"/get?k=123&v=456"⟩⟩).uri.authority =
      "" :=
  ⟨by decide, rfl, rfl⟩

/-- C8 (amended): every descriptor built by `from_service_region` has a
present, non-empty scheme and a non-empty authority; a descriptor built by
`from_uri` carries exactly the given URI (so its scheme/authority are
whatever the URI had, possibly absent); descriptors are never mutated after
construction. -/
theorem C8_amended_descriptor_invariant :
    (∀ (svc region : String) (e : StaticEndpoint),
        StaticEndpoint.from_service_region svc region = some e →
        (∃ sc, e.uri.scheme = some sc ∧ sc ≠ "") ∧ e.uri.authority ≠ "") ∧
    (∀ v : Uri, (StaticEndpoint.from_uri v).uri = v) := by
  constructor
  · intro svc region e h
    unfold StaticEndpoint.from_service_region at h
    obtain ⟨w, hw, he⟩ := Option.map_eq_some'.mp h
    rw [← he]
    exact from_str_scheme_authority hw
  · intro v
    rfl

theorem C8_amended_descriptor_invariant_witness :
    (∃ sc, (StaticEndpoint.mk
        ⟨some "https", "dynamodb.us-west-2.amazonaws.com", ⟨""⟩⟩).uri.scheme =
          some sc ∧ sc ≠ "") ∧
    (StaticEndpoint.mk
        ⟨some "https", "dynamodb.us-west-2.amazonaws.com", ⟨""⟩⟩).uri.authority
      ≠ "" :=
  C8_amended_descriptor_invariant.1 "dynamodb" "us-west-2"
    (StaticEndpoint.mk ⟨some "https", "dynamodb.us-west-2.amazonaws.com", ⟨""⟩⟩)
    (by decide)
